import Mathlib

/-!
Verification development for the web-UI build configuration
(`src/webui/vite.config.ts` of Auto_Bangumi).

The configuration file is declarative data handed to the Vite build tool.
We embed the configuration object literally, and model the small pieces of
build-tool semantics the specification talks about (dev-server proxy
matching, module-alias rewriting, SCSS `additionalData` prepending, CSS
chunking under `cssCodeSplit`).
-/

namespace AutoBangumi

/-! ## Strings

JavaScript string operations used by the build tool, expressed on the
character list underlying a Lean `String`. -/

/-- JS `s.startsWith(p)`. -/
def strStartsWith (s p : String) : Bool :=
  p.data.isPrefixOf s.data

/-- Does `sub` occur as a contiguous run inside `l`? -/
def listIncludes (sub : List Char) : List Char → Bool
  | [] => sub.isEmpty
  | c :: cs => sub.isPrefixOf (c :: cs) || listIncludes sub cs

/-- JS `s.includes(sub)`. -/
def strIncludes (s sub : String) : Bool :=
  listIncludes sub.data s.data

/-- JS `===` on strings: equality of the underlying character lists. -/
def strEq (a b : String) : Bool :=
  a.data == b.data

/-- JS `s.slice(n)` for a nonnegative `n`. -/
def strDrop (s : String) (n : Nat) : String :=
  ⟨s.data.drop n⟩

/-! ## Regular expressions

The proxy table key `^/api/.*` is, per Vite, compiled with `new RegExp`
and tested against the request path with JS search semantics.  We model
the ECMAScript regular-expression fragment that key uses (literal
characters, `.`, `*`, with `^` anchoring) by Brzozowski derivatives. -/

/-- Syntax of the regular-expression fragment used by the configuration. -/
inductive Regex where
  | fail
  | eps
  | lit (c : Char)
  | anyChar
  | alt (r1 r2 : Regex)
  | seq (r1 r2 : Regex)
  | star (r : Regex)
deriving DecidableEq, Repr

/-- ECMAScript line terminators, which `.` does not match. -/
def isLineTerminator (c : Char) : Bool :=
  c == '\n' || c == '\r' || c == '\u2028' || c == '\u2029'

/-- Does the regex accept the empty string? -/
def nullable : Regex → Bool
  | .fail => false
  | .eps => true
  | .lit _ => false
  | .anyChar => false
  | .alt r1 r2 => nullable r1 || nullable r2
  | .seq r1 r2 => nullable r1 && nullable r2
  | .star _ => true

/-- Brzozowski derivative of a regex by one character. -/
def deriv : Regex → Char → Regex
  | .fail, _ => .fail
  | .eps, _ => .fail
  | .lit c, a => if a == c then .eps else .fail
  | .anyChar, a => if isLineTerminator a then .fail else .eps
  | .alt r1 r2, a => .alt (deriv r1 a) (deriv r2 a)
  | .seq r1 r2, a =>
    if nullable r1 then .alt (.seq (deriv r1 a) r2) (deriv r2 a)
    else .seq (deriv r1 a) r2
  | .star r, a => .seq (deriv r a) (.star r)

/-- `re.test(s)` for an `^`-anchored regex: does the regex match some
prefix of the character list? -/
def anchoredTest : Regex → List Char → Bool
  | r, [] => nullable r
  | r, c :: cs => nullable r || anchoredTest (deriv r c) cs

theorem anchoredTest_of_nullable {r : Regex} (h : nullable r = true)
    (l : List Char) : anchoredTest r l = true := by
  cases l <;> simp [anchoredTest, h]

theorem anchoredTest_fail (l : List Char) : anchoredTest .fail l = false := by
  induction l with
  | nil => rfl
  | cons c cs ih => simp [anchoredTest, deriv, nullable, ih]

theorem anchoredTest_alt (r1 r2 : Regex) (l : List Char) :
    anchoredTest (.alt r1 r2) l = (anchoredTest r1 l || anchoredTest r2 l) := by
  induction l generalizing r1 r2 with
  | nil => simp [anchoredTest, nullable]
  | cons c cs ih =>
    simp only [anchoredTest, nullable, deriv, ih]
    cases nullable r1 <;> cases nullable r2 <;>
      cases anchoredTest (deriv r1 c) cs <;> simp

theorem anchoredTest_seq_fail (r : Regex) (l : List Char) :
    anchoredTest (.seq .fail r) l = false := by
  induction l with
  | nil => simp [anchoredTest, nullable]
  | cons c cs ih => simp [anchoredTest, nullable, deriv, ih]

theorem anchoredTest_seq_eps (r : Regex) (l : List Char) :
    anchoredTest (.seq .eps r) l = anchoredTest r l := by
  cases l with
  | nil => simp [anchoredTest, nullable]
  | cons c cs =>
    simp [anchoredTest, nullable, deriv, anchoredTest_alt, anchoredTest_seq_fail]

theorem anchoredTest_seq_lit_nil (c : Char) (r : Regex) :
    anchoredTest (.seq (.lit c) r) [] = false := by
  simp [anchoredTest, nullable]

theorem anchoredTest_seq_lit_cons (c a : Char) (r : Regex) (l : List Char) :
    anchoredTest (.seq (.lit c) r) (a :: l) = ((a == c) && anchoredTest r l) := by
  by_cases h : a = c
  · subst h
    simp [anchoredTest, nullable, deriv, anchoredTest_seq_eps]
  · have hb : (a == c) = false := by simp [h]
    simp [anchoredTest, nullable, deriv, hb, anchoredTest_seq_fail]

/-! ## The configuration data model

A record per section of the exported object of `vite.config.ts`,
instantiated with the literal values of the source file. -/

/-- One `find → replacement` entry of `resolve.alias`. -/
structure AliasEntry where
  find : String
  replacement : String
deriving DecidableEq, Repr

/-- One activated build plugin together with the static options the
configuration passes it (only the option fields the configuration
actually sets are modelled; absent options are `none` / `[]` / `false`). -/
structure PluginActivation where
  name : String
  dts : Option String
  dirs : List String
  imports : List String
  defineModel : Bool
deriving DecidableEq, Repr

/-- Options for one preprocessor under `css.preprocessorOptions`. -/
structure PreprocessorOptions where
  additionalData : String
deriving DecidableEq, Repr

/-- The `build` section. -/
structure BuildOptions where
  cssCodeSplit : Bool
deriving DecidableEq, Repr

/-- The `resolve` section. -/
structure ResolveOptions where
  «alias» : List AliasEntry
deriving DecidableEq, Repr

/-- One entry of `server.proxy`: `context` is the literal table key and
`target` the origin string.  `pattern` is the regex denoted by `context`
when the key starts with `^` (Vite then compiles the key with
`new RegExp`); the leading `^` anchor is expressed by judging the key
with `anchoredTest`. -/
structure ProxyRule where
  context : String
  pattern : Regex
  target : String
deriving DecidableEq, Repr

/-- The `server` section. -/
structure ServerOptions where
  proxy : List ProxyRule
deriving DecidableEq, Repr

/-- The `css` section: an association list keyed by preprocessor name. -/
structure CssOptions where
  preprocessorOptions : List (String × PreprocessorOptions)
deriving DecidableEq, Repr

/-- The whole exported configuration object. -/
structure ViteConfig where
  base : String
  plugins : List PluginActivation
  css : CssOptions
  build : BuildOptions
  resolve : ResolveOptions
  server : ServerOptions
deriving DecidableEq, Repr

/-- `resolve(__dirname, seg)` of `node:path` for an absolute `__dirname`
without a trailing slash and a plain relative segment. -/
def pathResolve (dir seg : String) : String :=
  dir ++ "/" ++ seg

/-- The regex denoted by the proxy key `^/api/.*` (sans the `^` anchor,
which `anchoredTest` supplies): the literal run `/api/` followed by
`.*`. -/
def apiProxyPattern : Regex :=
  .seq (.lit '/') (.seq (.lit 'a') (.seq (.lit 'p') (.seq (.lit 'i')
    (.seq (.lit '/') (.star .anyChar)))))

/-- The configuration object exported by `src/webui/vite.config.ts`,
as a function of the config file's directory `__dirname`. -/
def viteConfig (dirname : String) : ViteConfig :=
  ⟨ "./"
  , [ ⟨"unplugin-vue-router", some "types/dts/router-type.d.ts", [], [], false⟩
    , ⟨"@vitejs/plugin-vue", none, [], [], true⟩
    , ⟨"unocss", none, [], [], false⟩
    , ⟨"unplugin-auto-import", some "types/dts/auto-imports.d.ts"
      , ["src/api", "src/store", "src/hooks", "src/utils"]
      , ["vue", "vitest", "pinia", "@vueuse/core", "vue-i18n", "VueRouterAutoImports"]
      , false⟩
    , ⟨"unplugin-vue-components", some "types/dts/components.d.ts"
      , [ "src/components", "src/components/basic", "src/components/layout"
        , "src/components/setting"]
      , [], false⟩ ]
  , ⟨[("scss", ⟨"@import \"./src/style/mixin.scss\";"⟩)]⟩
  , ⟨false⟩
  , ⟨[⟨"@", pathResolve dirname "src"⟩, ⟨"#", pathResolve dirname "types"⟩]⟩
  , ⟨[⟨"^/api/.*", apiProxyPattern, "http://127.0.0.1:7892"⟩]⟩ ⟩

/-! ## Build-tool semantics

The behaviors the specification attributes to the configuration are
carried out by the external build tool; the definitions below model the
tool's documented handling of each configuration section. -/

/-- Where a development-server request ends up: forwarded to a proxy
target, or served by the built-in dev server. -/
inductive RouteResult where
  | proxied (target : String) (path : String)
  | devServer (path : String)
deriving DecidableEq, Repr

/-- Modelled from the spec: Vite's proxy-context matching.  A table key
starting with `^` is compiled with `new RegExp` and tested against the
request path; any other key is compared with `path.startsWith(key)`. -/
def proxyContextMatch (r : ProxyRule) (path : String) : Bool :=
  if strStartsWith r.context "^" then anchoredTest r.pattern path.data
  else strStartsWith path r.context

/-- Modelled from the spec: the dev server forwards a request to the
first proxy rule whose context matches the path, keeping the path
unchanged (no `rewrite` is configured); otherwise the built-in server
serves it. -/
def routeRequest (cfg : ViteConfig) (path : String) : RouteResult :=
  match cfg.server.proxy.find? (fun r => proxyContextMatch r path) with
  | some r => .proxied r.target path
  | none => .devServer path

/-- The full URL a forwarded request is sent to. -/
def forwardedUrl : RouteResult → Option String
  | .proxied target path => some (target ++ path)
  | .devServer _ => none

/-- Modelled from the spec: alias rewriting.  An entry matches an
importee that equals its `find` or continues it with a `/`; the first
matching entry replaces that leading run with its `replacement`. -/
def aliasMatches (pattern importee : String) : Bool :=
  strEq importee pattern || strStartsWith importee (pattern ++ "/")

/-- Rewrite a module specifier through the alias table. -/
def resolveSpecifier (entries : List AliasEntry) (importee : String) : String :=
  match entries.find? (fun e => aliasMatches e.find importee) with
  | some e => e.replacement ++ strDrop importee e.find.data.length
  | none => importee

/-- Modelled from the spec: a string-valued `additionalData` for a
preprocessor is prepended, once, to every source handed to that
preprocessor; a preprocessor with no options entry compiles the source
unchanged. -/
def preprocessStyle (cfg : ViteConfig) (lang : String) (src : String) : String :=
  match cfg.css.preprocessorOptions.find? (fun p => p.1 == lang) with
  | some p => p.2.additionalData ++ src
  | none => src

/-- Modelled from the spec: CSS chunk emission.  With `cssCodeSplit` on,
the build emits one CSS chunk per style entry; with it off, all CSS is
concatenated into a single chunk (none when there is no CSS at all). -/
def cssChunks (cfg : ViteConfig) (styles : List String) : List String :=
  if cfg.build.cssCodeSplit then styles
  else if styles.isEmpty then [] else [String.join styles]

/-- The declaration files the activated plugins emit: the `dts` option
of every plugin that sets one, in activation order. -/
def emittedDtsFiles (cfg : ViteConfig) : List String :=
  cfg.plugins.filterMap (fun p => p.dts)

/-- The list of boolean-valued settings of the `build` section, with
their names. -/
def buildToggles (cfg : ViteConfig) : List (String × Bool) :=
  [("cssCodeSplit", cfg.build.cssCodeSplit)]

/-- State of a running dev-server process: the configuration it read at
startup. -/
structure ServerState where
  config : ViteConfig
deriving DecidableEq, Repr

/-- Handling one request: route it by the current configuration.  The
configuration is only read. -/
def handleRequest (st : ServerState) (path : String) : RouteResult × ServerState :=
  (routeRequest st.config path, st)

/-- Run the dev server over a sequence of request paths, threading the
server state through. -/
def runServer (st : ServerState) : List String → List RouteResult × ServerState
  | [] => ([], st)
  | p :: ps =>
    let step := handleRequest st p
    let rest := runServer step.2 ps
    (step.1 :: rest.1, rest.2)

/-- An evaluation environment a config module could in principle consult:
process environment variables and a clock. -/
structure EvalEnv where
  envVars : List (String × String)
  clock : Nat
deriving DecidableEq, Repr

/-- Evaluating the configuration module in an environment.  The source
file reads nothing from its environment except `__dirname`. -/
def evalConfigModule (dirname : String) (_e : EvalEnv) : ViteConfig :=
  viteConfig dirname

/-! ## The proxy pattern characterised -/

theorem apiData_eq : "/api/".data = ['/', 'a', 'p', 'i', '/'] := rfl

theorem char_beq_symm (a b : Char) : (a == b) = (b == a) := by
  by_cases h : a = b
  · subst h; rfl
  · have h1 : (a == b) = false := by simp [h]
    have h2 : (b == a) = false := by simp [Ne.symm h]
    rw [h1, h2]

theorem anchoredTest_apiProxyPattern (l : List Char) :
    anchoredTest apiProxyPattern l = List.isPrefixOf ['/', 'a', 'p', 'i', '/'] l := by
  rcases l with _ | ⟨c1, _ | ⟨c2, _ | ⟨c3, _ | ⟨c4, _ | ⟨c5, rest⟩⟩⟩⟩⟩ <;>
    simp [apiProxyPattern, anchoredTest_seq_lit_cons, anchoredTest_seq_lit_nil,
      anchoredTest_of_nullable, nullable, List.isPrefixOf, char_beq_symm, Bool.and_assoc]

theorem proxyContextMatch_api (p : String) :
    proxyContextMatch ⟨"^/api/.*", apiProxyPattern, "http://127.0.0.1:7892"⟩ p
      = anchoredTest apiProxyPattern p.data := rfl

theorem routeRequest_viteConfig (d p : String) :
    routeRequest (viteConfig d) p =
      if List.isPrefixOf ['/', 'a', 'p', 'i', '/'] p.data
      then RouteResult.proxied "http://127.0.0.1:7892" p
      else RouteResult.devServer p := by
  rw [← anchoredTest_apiProxyPattern]
  cases h : anchoredTest apiProxyPattern p.data with
  | false =>
    simp only [routeRequest, viteConfig]
    rw [List.find?_cons_of_neg, List.find?_nil]
    · rfl
    · simp [proxyContextMatch_api, h]
  | true =>
    simp only [routeRequest, viteConfig]
    rw [List.find?_cons_of_pos]
    · rfl
    · simp [proxyContextMatch_api, h]

/-- C1: a development request whose path matches `^/api/.*` is forwarded
to the origin `http://127.0.0.1:7892` with the path unchanged, and every
request whose path does not match is not forwarded but served by the
built-in dev server; in particular `/api/health` goes to
`http://127.0.0.1:7892/api/health` and `/assets/logo.png` is served by
the built-in dev server. -/
theorem claim_api_requests_forwarded :
    (∀ d p : String, strStartsWith p "/api/" = true →
      routeRequest (viteConfig d) p
        = RouteResult.proxied "http://127.0.0.1:7892" p)
    ∧ (∀ d p : String, strStartsWith p "/api/" = false →
      routeRequest (viteConfig d) p = RouteResult.devServer p)
    ∧ (∀ d : String,
        forwardedUrl (routeRequest (viteConfig d) "/api/health")
          = some "http://127.0.0.1:7892/api/health")
    ∧ (∀ d : String,
        routeRequest (viteConfig d) "/assets/logo.png"
          = RouteResult.devServer "/assets/logo.png") := by
  refine ⟨?_, ?_, ?_, ?_⟩
  · intro d p h
    have hp : List.isPrefixOf ['/', 'a', 'p', 'i', '/'] p.data = true := by
      simpa [strStartsWith, apiData_eq] using h
    simp [routeRequest_viteConfig, hp]
  · intro d p h
    have hp : List.isPrefixOf ['/', 'a', 'p', 'i', '/'] p.data = false := by
      simpa [strStartsWith, apiData_eq] using h
    simp [routeRequest_viteConfig, hp]
  · intro d; rfl
  · intro d; rfl

theorem claim_api_requests_forwarded_witness :
    strStartsWith "/api/health" "/api/" = true
    ∧ routeRequest (viteConfig "/repo/src/webui") "/api/health"
        = RouteResult.proxied "http://127.0.0.1:7892" "/api/health"
    ∧ strStartsWith "/assets/logo.png" "/api/" = false
    ∧ routeRequest (viteConfig "/repo/src/webui") "/assets/logo.png"
        = RouteResult.devServer "/assets/logo.png" :=
  ⟨by decide
  , claim_api_requests_forwarded.1 "/repo/src/webui" "/api/health" (by decide)
  , by decide
  , claim_api_requests_forwarded.2.1 "/repo/src/webui" "/assets/logo.png" (by decide)⟩

/-- C8: the proxy pattern is anchored: a path that merely contains
`/api/` without beginning with it (such as `/v2/api/health`) is not
forwarded. -/
theorem claim_proxy_anchored :
    (∀ d p : String, strIncludes p "/api/" = true →
      strStartsWith p "/api/" = false →
      routeRequest (viteConfig d) p = RouteResult.devServer p)
    ∧ (∀ d : String,
        routeRequest (viteConfig d) "/v2/api/health"
          = RouteResult.devServer "/v2/api/health") := by
  constructor
  · intro d p _hin hns
    have hp : List.isPrefixOf ['/', 'a', 'p', 'i', '/'] p.data = false := by
      simpa [strStartsWith, apiData_eq] using hns
    simp [routeRequest_viteConfig, hp]
  · intro d; rfl

theorem claim_proxy_anchored_witness :
    strIncludes "/v2/api/health" "/api/" = true
    ∧ strStartsWith "/v2/api/health" "/api/" = false
    ∧ routeRequest (viteConfig "/repo/src/webui") "/v2/api/health"
        = RouteResult.devServer "/v2/api/health" :=
  ⟨by decide, by decide
  , claim_proxy_anchored.1 "/repo/src/webui" "/v2/api/health" (by decide) (by decide)⟩

/-- C2: the alias table has exactly the two entries `@` → `src` and `#`
→ `types` under `__dirname`, and a specifier starting with `@/` (resp.
`#/`) is rewritten to the corresponding path under the source (resp.
types) directory. -/
theorem claim_alias_table :
    (∀ d : String,
      (viteConfig d).resolve.«alias»
        = [⟨"@", pathResolve d "src"⟩, ⟨"#", pathResolve d "types"⟩]
      ∧ ((viteConfig d).resolve.«alias»).length = 2)
    ∧ (∀ d s : String,
        resolveSpecifier (viteConfig d).resolve.«alias» ("@/" ++ s)
          = pathResolve d "src" ++ ("/" ++ s))
    ∧ (∀ d s : String,
        resolveSpecifier (viteConfig d).resolve.«alias» ("#/" ++ s)
          = pathResolve d "types" ++ ("/" ++ s)) := by
  refine ⟨fun d => ⟨rfl, rfl⟩, ?_, ?_⟩
  · intro d s
    obtain ⟨l⟩ := s
    have hd : ("@/" ++ (⟨l⟩ : String)).data = '@' :: '/' :: l := rfl
    have hp : ("@" ++ "/" : String).data = ['@', '/'] := rfl
    have h1 : aliasMatches "@" ("@/" ++ (⟨l⟩ : String)) = true := by
      simp [aliasMatches, strStartsWith, hd, hp, List.isPrefixOf]
    simp only [resolveSpecifier, viteConfig]
    rw [List.find?_cons_of_pos]
    · rfl
    · exact h1
  · intro d s
    obtain ⟨l⟩ := s
    have hd : ("#/" ++ (⟨l⟩ : String)).data = '#' :: '/' :: l := rfl
    have hp : ("#" ++ "/" : String).data = ['#', '/'] := rfl
    have h1 : aliasMatches "@" ("#/" ++ (⟨l⟩ : String)) = false := rfl
    have h2 : aliasMatches "#" ("#/" ++ (⟨l⟩ : String)) = true := by
      simp [aliasMatches, strStartsWith, hd, hp, List.isPrefixOf]
    simp only [resolveSpecifier, viteConfig]
    rw [List.find?_cons_of_neg, List.find?_cons_of_pos]
    · rfl
    · exact h2
    · simp [h1]

theorem claim_alias_table_witness :
    ((viteConfig "/repo/src/webui").resolve.«alias»).length = 2
    ∧ resolveSpecifier (viteConfig "/repo/src/webui").resolve.«alias» "@/api/auth"
        = "/repo/src/webui/src/api/auth"
    ∧ resolveSpecifier (viteConfig "/repo/src/webui").resolve.«alias» "#/dts/util"
        = "/repo/src/webui/types/dts/util" :=
  ⟨(claim_alias_table.1 "/repo/src/webui").2
  , claim_alias_table.2.1 "/repo/src/webui" "api/auth"
  , claim_alias_table.2.2 "/repo/src/webui" "dts/util"⟩

/-- C3: the configuration switches CSS code splitting off, so a build
emits at most one CSS chunk. -/
theorem claim_css_single_chunk :
    ∀ (d : String) (styles : List String),
      (viteConfig d).build.cssCodeSplit = false
      ∧ (cssChunks (viteConfig d) styles).length ≤ 1 := by
  intro d styles
  refine ⟨rfl, ?_⟩
  have hb : (viteConfig d).build.cssCodeSplit = false := rfl
  rw [cssChunks, hb]
  cases h : styles.isEmpty <;> simp [h]

theorem claim_css_single_chunk_witness :
    (cssChunks (viteConfig "/repo/src/webui") ["a.css", "b.css", "c.css"]).length ≤ 1 :=
  (claim_css_single_chunk "/repo/src/webui" ["a.css", "b.css", "c.css"]).2

/-- C4: plugin execution emits exactly three declaration files, at the
three fixed paths, in activation order. -/
theorem claim_three_dts_files :
    ∀ d : String,
      emittedDtsFiles (viteConfig d)
        = [ "types/dts/router-type.d.ts", "types/dts/auto-imports.d.ts"
          , "types/dts/components.d.ts"]
      ∧ (emittedDtsFiles (viteConfig d)).length = 3 :=
  fun _ => ⟨rfl, rfl⟩

theorem claim_three_dts_files_witness :
    emittedDtsFiles (viteConfig "/repo/src/webui")
      = [ "types/dts/router-type.d.ts", "types/dts/auto-imports.d.ts"
        , "types/dts/components.d.ts"] :=
  (claim_three_dts_files "/repo/src/webui").1

/-- C5: every file handed to the SCSS preprocessor gets exactly the
mixin import prepended, once, before compilation. -/
theorem claim_scss_import_prepended :
    ∀ (d src : String),
      preprocessStyle (viteConfig d) "scss" src
        = "@import \"./src/style/mixin.scss\";" ++ src :=
  fun _ _ => rfl

theorem claim_scss_import_prepended_witness :
    preprocessStyle (viteConfig "/repo/src/webui") "scss" ".a color: red;"
      = "@import \"./src/style/mixin.scss\";.a color: red;" :=
  claim_scss_import_prepended "/repo/src/webui" ".a color: red;"

/-- C6 counterexample: the `build` section declares one boolean-valued
setting, not two. -/
theorem claim_two_build_toggles_counterexample :
    ¬ (buildToggles (viteConfig "/repo/src/webui")).length = 2 := by decide

/-- C6 amended: the configuration declares exactly one build-output
toggle, `cssCodeSplit`, set to `false`. -/
theorem claim_one_build_toggle :
    ∀ d : String,
      buildToggles (viteConfig d) = [("cssCodeSplit", false)]
      ∧ (buildToggles (viteConfig d)).length = 1 :=
  fun _ => ⟨rfl, rfl⟩

theorem claim_one_build_toggle_witness :
    buildToggles (viteConfig "/repo/src/webui") = [("cssCodeSplit", false)] :=
  (claim_one_build_toggle "/repo/src/webui").1

theorem runServer_preserves_state (st : ServerState) (reqs : List String) :
    (runServer st reqs).2 = st := by
  induction reqs generalizing st with
  | nil => rfl
  | cons p ps ih => simpa [runServer, handleRequest] using ih st

/-- C7: the configuration read at dev-server startup is unchanged after
any sequence of handled requests: request handling only reads it. -/
theorem claim_config_immutable :
    ∀ (d : String) (reqs : List String),
      (runServer ⟨viteConfig d⟩ reqs).2.config = viteConfig d := by
  intro d reqs
  rw [runServer_preserves_state]

theorem claim_config_immutable_witness :
    (runServer ⟨viteConfig "/repo/src/webui"⟩
        ["/api/health", "/assets/logo.png", "/api/bangumi"]).2.config
      = viteConfig "/repo/src/webui" :=
  claim_config_immutable "/repo/src/webui"
    ["/api/health", "/assets/logo.png", "/api/bangumi"]

/-- C9: `additionalData` is configured for the `scss` key only, so a
file processed by any other preprocessor is compiled unchanged. -/
theorem claim_only_scss_injected :
    ∀ (d lang src : String), lang ≠ "scss" →
      preprocessStyle (viteConfig d) lang src = src := by
  intro d lang src h
  have hb : ("scss" == lang) = false := by
    simp [Ne.symm h]
  simp only [preprocessStyle, viteConfig]
  rw [List.find?_cons_of_neg, List.find?_nil]
  simp [hb]

theorem claim_only_scss_injected_witness :
    preprocessStyle (viteConfig "/repo/src/webui") "less" ".a color: red;"
      = ".a color: red;" :=
  claim_only_scss_injected "/repo/src/webui" "less" ".a color: red;" (by decide)

/-- C10: evaluating the configuration module depends on nothing but
`__dirname`: any two evaluation environments yield the identical
configuration object, whose `base` is `./`. -/
theorem claim_config_eval_deterministic :
    ∀ (d : String) (e1 e2 : EvalEnv),
      evalConfigModule d e1 = evalConfigModule d e2
      ∧ evalConfigModule d e1 = viteConfig d
      ∧ (evalConfigModule d e1).base = "./" :=
  fun _ _ _ => ⟨rfl, rfl, rfl⟩

theorem claim_config_eval_deterministic_witness :
    evalConfigModule "/repo/src/webui" ⟨[("NODE_ENV", "production")], 17⟩
      = evalConfigModule "/repo/src/webui" ⟨[], 99⟩ :=
  (claim_config_eval_deterministic "/repo/src/webui"
    ⟨[("NODE_ENV", "production")], 17⟩ ⟨[], 99⟩).1

end AutoBangumi
